import Mathlib

/-!
Verification development for the `rust-solana-rest` HTTP service.

The repository is an HTTP facade over the Solana SDK: JSON handlers validate
shallow preconditions and delegate to a stateless service layer that calls
imported base58 / base64 / Ed25519 / SPL-token libraries.  This file embeds
the data model, the codec behaviour the service relies on (base58 and base64,
modelled concretely), the external cryptography and SPL-token libraries
(modelled abstractly, as interfaces), the service operations, the request
handlers and the router, and proves the specification claims about them.
-/

/- ## Base-conversion core

`bs58`-style base conversion is specified through big-endian digit lists.
`ofDigitsLE` and `digitsLE` are executable little-endian conversions; they are
bridged to Mathlib's `Nat.ofDigits` / `Nat.digits` for the round-trip lemmas.
-/

/-- Value of a little-endian digit list in base `b`. -/
def ofDigitsLE (b : Nat) : List Nat → Nat
  | [] => 0
  | d :: ds => d + b * ofDigitsLE b ds

/-- Fuel-driven little-endian digit expansion of `n` in base `b`.
Structural recursion on the fuel keeps it kernel-reducible. -/
def digitsLEFuel (b : Nat) : Nat → Nat → List Nat
  | 0, _ => []
  | fuel + 1, n => if n = 0 then [] else n % b :: digitsLEFuel b fuel (n / b)

/-- Little-endian digit expansion of `n` in base `b` (spends `n` as fuel,
which always suffices for `b ≥ 2`). -/
def digitsLE (b n : Nat) : List Nat := digitsLEFuel b n n

theorem ofDigitsLE_eq (b : Nat) (l : List Nat) : ofDigitsLE b l = Nat.ofDigits b l := by
  induction l with
  | nil => rfl
  | cons d ds ih => simp [ofDigitsLE, Nat.ofDigits_cons, ih]

theorem digitsLEFuel_eq (b : Nat) (hb : 1 < b) :
    ∀ fuel n, n ≤ fuel → digitsLEFuel b fuel n = Nat.digits b n := by
  intro fuel
  induction fuel with
  | zero =>
    intro n hn
    interval_cases n
    simp [digitsLEFuel]
  | succ fuel ih =>
    intro n hn
    by_cases h0 : n = 0
    · subst h0; simp [digitsLEFuel]
    · rw [digitsLEFuel, if_neg h0, Nat.digits_def' hb (Nat.pos_of_ne_zero h0)]
      congr 1
      apply ih
      have hlt : n / b < n := Nat.div_lt_self (Nat.pos_of_ne_zero h0) hb
      omega

theorem digitsLE_eq (b n : Nat) (hb : 1 < b) : digitsLE b n = Nat.digits b n :=
  digitsLEFuel_eq b hb n n le_rfl

theorem ofDigitsLE_digitsLE (b n : Nat) (hb : 1 < b) : ofDigitsLE b (digitsLE b n) = n := by
  rw [ofDigitsLE_eq, digitsLE_eq b n hb, Nat.ofDigits_digits]

theorem digitsLE_ofDigitsLE (b : Nat) (hb : 1 < b) (l : List Nat)
    (h1 : ∀ d ∈ l, d < b) (h2 : ∀ h : l ≠ [], l.getLast h ≠ 0) :
    digitsLE b (ofDigitsLE b l) = l := by
  rw [ofDigitsLE_eq, digitsLE_eq _ _ hb, Nat.digits_ofDigits b hb l h1 h2]

theorem digitsLE_lt (b n d : Nat) (hb : 1 < b) (hd : d ∈ digitsLE b n) : d < b := by
  rw [digitsLE_eq _ _ hb] at hd
  exact Nat.digits_lt_base hb hd

theorem digitsLE_getLast_ne_zero (b n : Nat) (hb : 1 < b) (hn : n ≠ 0)
    (h : digitsLE b n ≠ []) : (digitsLE b n).getLast h ≠ 0 := by
  have := Nat.getLast_digit_ne_zero b hn
  revert h
  rw [digitsLE_eq _ _ hb]
  intro h
  exact this

/-- A number below `b ^ k` has at most `k` base-`b` digits. -/
theorem digitsLE_length_le (b n k : Nat) (hb : 1 < b) (hn : n < b ^ k) :
    (digitsLE b n).length ≤ k := by
  rw [digitsLE_eq _ _ hb]
  by_cases h0 : n = 0
  · simp [h0]
  · by_contra hgt
    push_neg at hgt
    have h1 : b ^ (Nat.digits b n).length ≤ b * n := Nat.base_pow_length_digits_le b n hb h0
    have h2 : b ^ (k + 1) ≤ b ^ (Nat.digits b n).length := Nat.pow_le_pow_right (by omega) hgt
    have h3 : b * n < b * b ^ k := mul_lt_mul_of_pos_left hn (by omega)
    have h4 : b * b ^ k = b ^ (k + 1) := by ring
    omega

/-- Value of a big-endian digit list is below `b ^ length`. -/
theorem ofDigitsLE_lt (b : Nat) (l : List Nat) (hb : 1 < b) (h : ∀ d ∈ l, d < b) :
    ofDigitsLE b l < b ^ l.length := by
  rw [ofDigitsLE_eq]
  exact Nat.ofDigits_lt_base_pow_length hb h

/- ## Base58 codec (model of the `bs58` crate, Bitcoin alphabet)

Encoding maps each leading zero byte to the character `1` and the remaining
big-endian value to base-58 digits; decoding is the inverse. -/

/-- The Bitcoin base58 alphabet used by the `bs58` crate. -/
def b58alphabet : List Char :=
  ['1', '2', '3', '4', '5', '6', '7', '8', '9',
   'A', 'B', 'C', 'D', 'E', 'F', 'G', 'H', 'J', 'K', 'L', 'M', 'N',
   'P', 'Q', 'R', 'S', 'T', 'U', 'V', 'W', 'X', 'Y', 'Z',
   'a', 'b', 'c', 'd', 'e', 'f', 'g', 'h', 'i', 'j', 'k', 'm', 'n', 'o',
   'p', 'q', 'r', 's', 't', 'u', 'v', 'w', 'x', 'y', 'z']

/-- Digit value to base58 character. -/
def b58char (d : Nat) : Char := b58alphabet.getD d '1'

/-- Base58 character to digit value (only used on alphabet members). -/
def b58index (c : Char) : Nat := b58alphabet.indexOf c

/-- Model of `bs58::encode` of a byte list. -/
def encode58 (bs : List Nat) : String :=
  String.mk (List.replicate (bs.takeWhile (fun b => b == 0)).length '1'
    ++ (digitsLE 58 (ofDigitsLE 256 bs.reverse)).reverse.map b58char)

/-- Model of `bs58::decode` of a string into a byte list. -/
def decode58 (s : String) : Option (List Nat) :=
  if s.data.all (fun c => b58alphabet.contains c) then
    some (List.replicate (s.data.takeWhile (fun c => c == '1')).length 0
      ++ (digitsLE 256 (ofDigitsLE 58 (s.data.map b58index).reverse)).reverse)
  else none

theorem b58char_contains : ∀ d < 58, b58alphabet.contains (b58char d) = true := by decide

theorem b58index_b58char : ∀ d < 58, b58index (b58char d) = d := by decide

theorem b58char_ne_one : ∀ d < 58, d ≠ 0 → b58char d ≠ '1' := by decide

theorem ofDigitsLE_replicate_zero (b z : Nat) : ofDigitsLE b (List.replicate z 0) = 0 := by
  induction z with
  | zero => rfl
  | succ z ih => simp [List.replicate_succ, ofDigitsLE, ih]

theorem ofDigitsLE_append_replicate_zero (b z : Nat) (l : List Nat) :
    ofDigitsLE b (l ++ List.replicate z 0) = ofDigitsLE b l := by
  rw [ofDigitsLE_eq, ofDigitsLE_eq, Nat.ofDigits_append, ← ofDigitsLE_eq b (List.replicate z 0),
    ofDigitsLE_replicate_zero]
  simp

theorem decode58_encode58 (bs : List Nat) (hlt : ∀ b ∈ bs, b < 256) :
    decode58 (encode58 bs) = some bs := by
  classical
  set z := (bs.takeWhile (fun b => b == 0)).length with hz
  set t := bs.dropWhile (fun b => b == 0) with ht
  have htake : bs.takeWhile (fun b => b == 0) = List.replicate z 0 := by
    have hall0 : ∀ b ∈ bs.takeWhile (fun b => b == 0), b = 0 := by
      intro b hb
      have := List.mem_takeWhile_imp hb
      simpa using this
    have := List.eq_replicate_of_mem hall0
    simpa [hz] using this
  have hsplit : List.replicate z 0 ++ t = bs := by
    rw [← htake, ht]
    exact List.takeWhile_append_dropWhile _ _
  have htmem : ∀ b ∈ t, b < 256 := by
    intro b hb
    exact hlt b (hsplit ▸ List.mem_append_right _ hb)
  have hthead : ∀ b, t.head? = some b → b ≠ 0 := by
    intro b hb
    have hne : t ≠ [] := by intro h; rw [h] at hb; cases hb
    have h1 := List.head_dropWhile_not (fun x => x == 0) bs (by rw [← ht]; exact hne)
    have h2 : t.head? = some (t.head hne) := List.head?_eq_head hne
    rw [hb] at h2
    have h3 : b = t.head hne := by injection h2
    rw [h3]
    intro h4
    have h5 : (t.head hne == 0) = false := h1
    rw [h4] at h5
    simp at h5
  have hval : ofDigitsLE 256 bs.reverse = ofDigitsLE 256 t.reverse := by
    rw [← hsplit, List.reverse_append, List.reverse_replicate,
      ofDigitsLE_append_replicate_zero]
  set n := ofDigitsLE 256 t.reverse with hn
  set ds := digitsLE 58 n with hds
  have hds_lt : ∀ d ∈ ds, d < 58 := fun d hd => digitsLE_lt 58 n d (by norm_num) hd
  have hdata : (encode58 bs).data = List.replicate z '1' ++ ds.reverse.map b58char := by
    simp [encode58, hval, ← hz, ← hds]
  have hvalid : ((encode58 bs).data.all (fun c => b58alphabet.contains c)) = true := by
    rw [hdata, List.all_append]
    refine (Bool.and_eq_true _ _).mpr ⟨?_, ?_⟩
    · rw [List.all_eq_true]
      intro c hc
      rw [List.eq_of_mem_replicate hc]
      decide
    · rw [List.all_eq_true]
      intro c hc
      rcases List.mem_map.mp hc with ⟨d, hd, rfl⟩
      exact b58char_contains d (hds_lt d (List.mem_reverse.mp hd))
  have htail_tw : (ds.reverse.map b58char).takeWhile (fun c => c == '1') = [] := by
    by_cases h0 : n = 0
    · have : ds = [] := by rw [hds, h0]; rfl
      simp [this]
    · have hne : ds ≠ [] := by
        rw [hds, digitsLE_eq 58 n (by norm_num)]
        exact Nat.digits_ne_nil_iff_ne_zero.mpr h0
      have hrevne : ds.reverse ≠ [] := by simpa using hne
      have hlast : ds.getLast hne ≠ 0 := digitsLE_getLast_ne_zero 58 n (by norm_num) h0 hne
      rcases hrev : ds.reverse with _ | ⟨d0, rest⟩
      · exact absurd hrev hrevne
      · have hlast? : ds.getLast? = some d0 := by
          rw [← List.head?_reverse, hrev]
          rfl
        have hd0 : d0 = ds.getLast hne := by
          rw [List.getLast?_eq_getLast ds hne] at hlast?
          injection hlast? with h3
          exact h3.symm
        have hd0lt : d0 < 58 := by
          apply hds_lt d0
          apply List.mem_reverse.mp
          rw [hrev]
          exact List.mem_cons_self _ _
        have hne1 : b58char d0 ≠ '1' := b58char_ne_one d0 hd0lt (hd0 ▸ hlast)
        simp [List.takeWhile_cons, hne1]
  have htw : (encode58 bs).data.takeWhile (fun c => c == '1') = List.replicate z '1' := by
    rw [hdata, List.takeWhile_append_of_pos, htail_tw, List.append_nil]
    intro a ha
    rw [List.eq_of_mem_replicate ha]
    decide
  have hcomp : ∀ d ∈ ds.reverse, (b58index ∘ b58char) d = id d :=
    fun d hd => b58index_b58char d (hds_lt d (List.mem_reverse.mp hd))
  have hone : b58index '1' = 0 := by decide
  have hmap : (encode58 bs).data.map b58index = List.replicate z 0 ++ ds.reverse := by
    rw [hdata, List.map_append, List.map_replicate, List.map_map,
      List.map_congr_left hcomp, List.map_id, hone]
  have hn' : ofDigitsLE 58 ((encode58 bs).data.map b58index).reverse = n := by
    rw [hmap, List.reverse_append, List.reverse_reverse, List.reverse_replicate,
      ofDigitsLE_append_replicate_zero]
    exact ofDigitsLE_digitsLE 58 n (by norm_num)
  have hback : (digitsLE 256 n).reverse = t := by
    by_cases h0 : n = 0
    · have ht0 : t = [] := by
        rcases hteq : t with _ | ⟨b0, rest⟩
        · rfl
        · exfalso
          have hb0 : b0 ≠ 0 := hthead b0 (by rw [hteq]; rfl)
          have hmem : b0 ∈ t.reverse := by rw [hteq]; simp
          have hz0 : Nat.ofDigits 256 t.reverse = 0 := by
            rw [← ofDigitsLE_eq]
            exact hn ▸ h0
          have := Nat.digits_zero_of_eq_zero (by norm_num) hz0 b0 hmem
          exact hb0 this
      rw [h0, ht0]
      rfl
    · have htne : t ≠ [] := by
        intro hteq
        apply h0
        rw [hn, hteq]
        rfl
      have hrevlast : ∀ w : t.reverse ≠ [], t.reverse.getLast w ≠ 0 := by
        intro w
        rw [List.getLast_reverse]
        intro hcontra
        have hne := htne
        have h2 : t.head? = some (t.head (by simpa using w)) :=
          List.head?_eq_head _
        exact hthead _ (by rw [h2, hcontra]) rfl
      have := digitsLE_ofDigitsLE 256 (by norm_num) t.reverse
        (fun d hd => htmem d (List.mem_reverse.mp hd)) hrevlast
      rw [← hn] at this
      rw [this, List.reverse_reverse]
  rw [decode58, if_pos hvalid, htw, hn', hback]
  simp [List.length_replicate, hsplit]

theorem pow256_le_pow58 : ∀ k ≤ 32, (256 : Nat) ^ k ≤ 58 ^ (k + 12) := by
  intro k hk
  have h1 : (256 : Nat) ^ 32 ≤ 58 ^ 44 := by norm_num
  have h2 : (58 : Nat) ^ (32 - k) ≤ 256 ^ (32 - k) := Nat.pow_le_pow_left (by norm_num) _
  have h3 : (256 : Nat) ^ k * 256 ^ (32 - k) = 256 ^ 32 := by
    rw [← pow_add]
    congr 1
    omega
  have h4 : (58 : Nat) ^ (k + 12) * 58 ^ (32 - k) = 58 ^ 44 := by
    rw [← pow_add]
    congr 1
    omega
  have h5 : (256 : Nat) ^ k * 256 ^ (32 - k) ≤ 58 ^ (k + 12) * 256 ^ (32 - k) := by
    calc (256 : Nat) ^ k * 256 ^ (32 - k) = 256 ^ 32 := h3
    _ ≤ 58 ^ 44 := h1
    _ = 58 ^ (k + 12) * 58 ^ (32 - k) := h4.symm
    _ ≤ 58 ^ (k + 12) * 256 ^ (32 - k) := Nat.mul_le_mul_left _ h2
  exact Nat.le_of_mul_le_mul_right h5 (Nat.pos_pow_of_pos _ (by norm_num))

/-- The base58 encoding of a 32-byte value is at most 44 characters, so it
always passes the Solana `Pubkey::from_str` length guard. -/
theorem encode58_length_le_44 (bs : List Nat) (hlt : ∀ b ∈ bs, b < 256)
    (hlen : bs.length = 32) : (encode58 bs).length ≤ 44 := by
  classical
  set z := (bs.takeWhile (fun b => b == 0)).length with hz
  set t := bs.dropWhile (fun b => b == 0) with ht
  have htake : bs.takeWhile (fun b => b == 0) = List.replicate z 0 := by
    have hall0 : ∀ b ∈ bs.takeWhile (fun b => b == 0), b = 0 := by
      intro b hb
      have := List.mem_takeWhile_imp hb
      simpa using this
    have := List.eq_replicate_of_mem hall0
    simpa [hz] using this
  have hsplit : List.replicate z 0 ++ t = bs := by
    rw [← htake, ht]
    exact List.takeWhile_append_dropWhile _ _
  have hzle : z + t.length = 32 := by
    have := congrArg List.length hsplit
    simpa [hlen] using this
  have htmem : ∀ b ∈ t, b < 256 := by
    intro b hb
    exact hlt b (hsplit ▸ List.mem_append_right _ hb)
  have hval : ofDigitsLE 256 bs.reverse = ofDigitsLE 256 t.reverse := by
    rw [← hsplit, List.reverse_append, List.reverse_replicate,
      ofDigitsLE_append_replicate_zero]
  have hnlt : ofDigitsLE 256 t.reverse < 256 ^ t.length := by
    have := ofDigitsLE_lt 256 t.reverse (by norm_num)
      (fun d hd => htmem d (List.mem_reverse.mp hd))
    simpa using this
  have hpow : (256 : Nat) ^ t.length ≤ 58 ^ (t.length + 12) :=
    pow256_le_pow58 t.length (by omega)
  have hdlen : (digitsLE 58 (ofDigitsLE 256 bs.reverse)).length ≤ t.length + 12 := by
    apply digitsLE_length_le _ _ _ (by norm_num)
    rw [hval]
    exact lt_of_lt_of_le hnlt hpow
  have hslen : (encode58 bs).length =
      z + (digitsLE 58 (ofDigitsLE 256 bs.reverse)).length := by
    show (List.replicate z '1'
      ++ (digitsLE 58 (ofDigitsLE 256 bs.reverse)).reverse.map b58char).length = _
    simp
  omega

/- ## Base64 codec (model of the `base64` crate's STANDARD engine)

Standard alphabet with `=` padding; decoding requires canonical padding and
zero trailing bits, and rejects any non-alphabet character. -/

/-- The standard base64 alphabet. -/
def b64alphabet : List Char :=
  ['A', 'B', 'C', 'D', 'E', 'F', 'G', 'H', 'I', 'J', 'K', 'L', 'M',
   'N', 'O', 'P', 'Q', 'R', 'S', 'T', 'U', 'V', 'W', 'X', 'Y', 'Z',
   'a', 'b', 'c', 'd', 'e', 'f', 'g', 'h', 'i', 'j', 'k', 'l', 'm',
   'n', 'o', 'p', 'q', 'r', 's', 't', 'u', 'v', 'w', 'x', 'y', 'z',
   '0', '1', '2', '3', '4', '5', '6', '7', '8', '9', '+', '/']

/-- Sextet value to base64 character. -/
def b64char (d : Nat) : Char := b64alphabet.getD d 'A'

/-- Base64 character to sextet value, `none` off the alphabet. -/
def b64index (c : Char) : Option Nat :=
  if b64alphabet.contains c then some (b64alphabet.indexOf c) else none

/-- Encode bytes three at a time into four base64 characters, with padding. -/
def encode64Chunks : List Nat → List Char
  | [] => []
  | [b1] => [b64char (b1 / 4), b64char (b1 % 4 * 16), '=', '=']
  | [b1, b2] => [b64char (b1 / 4), b64char (b1 % 4 * 16 + b2 / 16),
      b64char (b2 % 16 * 4), '=']
  | b1 :: b2 :: b3 :: rest =>
      b64char (b1 / 4) :: b64char (b1 % 4 * 16 + b2 / 16) ::
      b64char (b2 % 16 * 4 + b3 / 64) :: b64char (b3 % 64) :: encode64Chunks rest

/-- Decode base64 characters four at a time, handling the padded final chunk.
Padding is only legal in the last chunk, and unused trailing bits must be
zero. -/
def decode64Chunks : List Char → Option (List Nat)
  | [] => some []
  | c1 :: c2 :: c3 :: c4 :: rest =>
      match b64index c1, b64index c2 with
      | some s1, some s2 =>
        if c3 = '=' then
          if c4 = '=' ∧ rest = [] then
            if s2 % 16 = 0 then some [s1 * 4 + s2 / 16] else none
          else none
        else
          match b64index c3 with
          | some s3 =>
            if c4 = '=' then
              if rest = [] then
                if s3 % 4 = 0 then some [s1 * 4 + s2 / 16, s2 % 16 * 16 + s3 / 4]
                else none
              else none
            else
              match b64index c4, decode64Chunks rest with
              | some s4, some tail =>
                  some ((s1 * 4 + s2 / 16) :: (s2 % 16 * 16 + s3 / 4) ::
                    (s3 % 4 * 64 + s4) :: tail)
              | _, _ => none
          | none => none
      | _, _ => none
  | _ => none

/-- Model of `base64::engine::general_purpose::STANDARD.encode`. -/
def encode64 (bs : List Nat) : String := String.mk (encode64Chunks bs)

/-- Model of `base64::engine::general_purpose::STANDARD.decode`. -/
def decode64 (s : String) : Option (List Nat) := decode64Chunks s.data

theorem b64index_b64char : ∀ d < 64, b64index (b64char d) = some d := by decide

theorem b64char_ne_eq : ∀ d < 64, b64char d ≠ '=' := by decide

theorem decode64Chunks_encode64Chunks (bs : List Nat) (h : ∀ b ∈ bs, b < 256) :
    decode64Chunks (encode64Chunks bs) = some bs := by
  induction bs using encode64Chunks.induct with
  | case1 => rfl
  | case2 b1 =>
    have hb1 : b1 < 256 := h b1 (by simp)
    have h1 : b1 % 4 * 16 % 16 = 0 := by omega
    have h2 : b1 / 4 * 4 + b1 % 4 * 16 / 16 = b1 := by omega
    simp only [encode64Chunks, decode64Chunks,
      b64index_b64char _ (by omega : b1 / 4 < 64),
      b64index_b64char _ (by omega : b1 % 4 * 16 < 64)]
    simp [h1]
    omega
  | case3 b1 b2 =>
    have hb1 : b1 < 256 := h b1 (by simp)
    have hb2 : b2 < 256 := h b2 (by simp)
    have hc2ne : b64char (b2 % 16 * 4) ≠ '=' := b64char_ne_eq _ (by omega)
    have h1 : b2 % 16 * 4 % 4 = 0 := by omega
    have h2 : b1 / 4 * 4 + (b1 % 4 * 16 + b2 / 16) / 16 = b1 := by omega
    have h3 : (b1 % 4 * 16 + b2 / 16) % 16 * 16 + b2 % 16 * 4 / 4 = b2 := by omega
    simp only [encode64Chunks, decode64Chunks,
      b64index_b64char _ (by omega : b1 / 4 < 64),
      b64index_b64char _ (by omega : b1 % 4 * 16 + b2 / 16 < 64),
      b64index_b64char _ (by omega : b2 % 16 * 4 < 64)]
    simp [hc2ne, h1]
    omega
  | case4 b1 b2 b3 rest ih =>
    have hb1 : b1 < 256 := h b1 (by simp)
    have hb2 : b2 < 256 := h b2 (by simp)
    have hb3 : b3 < 256 := h b3 (by simp)
    have hrest : ∀ b ∈ rest, b < 256 := fun b hb => h b (by simp [hb])
    have hne1 : b64char (b2 % 16 * 4 + b3 / 64) ≠ '=' := b64char_ne_eq _ (by omega)
    have hne2 : b64char (b3 % 64) ≠ '=' := b64char_ne_eq _ (by omega)
    have h2 : b1 / 4 * 4 + (b1 % 4 * 16 + b2 / 16) / 16 = b1 := by omega
    have h3 : (b1 % 4 * 16 + b2 / 16) % 16 * 16 + (b2 % 16 * 4 + b3 / 64) / 4 = b2 := by
      omega
    have h4 : (b2 % 16 * 4 + b3 / 64) % 4 * 64 + b3 % 64 = b3 := by omega
    simp only [encode64Chunks, decode64Chunks,
      b64index_b64char _ (by omega : b1 / 4 < 64),
      b64index_b64char _ (by omega : b1 % 4 * 16 + b2 / 16 < 64),
      b64index_b64char _ (by omega : b2 % 16 * 4 + b3 / 64 < 64),
      b64index_b64char _ (by omega : b3 % 64 < 64)]
    simp [hne1, hne2, ih hrest]
    refine ⟨?_, ?_, ?_⟩ <;> omega

/-- Round trip: `decode64` inverts `encode64` on byte lists. -/
theorem decode64_encode64 (bs : List Nat) (h : ∀ b ∈ bs, b < 256) :
    decode64 (encode64 bs) = some bs :=
  decode64Chunks_encode64Chunks bs h

/- ## Errors and serialization models -/

/-- Modelled from the spec: the `errors` module (`AppError` and the decode
error helpers mapped by the error-to-HTTP-status layer) is not among the
provided sources; its variants are reconstructed from the call sites in the
handlers and the service. -/
inductive AppError where
  | ValidationError : String → AppError
  | InvalidPublicKey : String → AppError
  | InvalidSecretKey : String → AppError
  | InvalidSignature : String → AppError
  | TokenOperationFailed : String → AppError
  | Base58DecodeError : AppError
  | Base64DecodeError : AppError
deriving DecidableEq, Repr

/-- Modelled from the spec: `errors::base58_decode_error` maps a `bs58`
decode failure into an `AppError`. -/
def base58_decode_error : AppError := AppError.Base58DecodeError

/-- Modelled from the spec: `errors::base64_decode_error` maps a `base64`
decode failure into an `AppError`. -/
def base64_decode_error : AppError := AppError.Base64DecodeError

/-- Model of `models::ApiResponse`: success envelope. -/
structure ApiResponse (α : Type) where
  success : Bool
  data : α
deriving DecidableEq, Repr

/-- Model of `models::ApiResponse::success` (primed: the structure field keeps the
Rust field name `success`). -/
def ApiResponse.success' {α : Type} (data : α) : ApiResponse α :=
  { success := true, data := data }

/-- Model of `models::ApiErrorResponse`: error envelope. -/
structure ApiErrorResponse where
  success : Bool
  error : String
deriving DecidableEq, Repr

/-- Model of `models::ApiErrorResponse::error` (primed: the structure field keeps the
Rust field name `error`). -/
def ApiErrorResponse.error' (message : String) : ApiErrorResponse :=
  { success := false, error := message }

/-- Model of `models::KeypairResponse`. -/
structure KeypairResponse where
  public_key : String
  secret_key : String
deriving DecidableEq, Repr

/-- Model of `models::CreateTokenRequest` (`mint_authority` is renamed to
`mintAuthority` on the wire). -/
structure CreateTokenRequest where
  mint_authority : String
  mint : String
  decimals : Nat
deriving DecidableEq, Repr

/-- Model of `models::MintTokenRequest`. -/
structure MintTokenRequest where
  mint : String
  destination : String
  authority : String
  amount : Nat
deriving DecidableEq, Repr

/-- Model of `models::AccountMeta` (response form, base58 pubkey string). -/
structure AccountMeta where
  pubkey : String
  is_signer : Bool
  is_writable : Bool
deriving DecidableEq, Repr

/-- Model of `models::TokenInstructionResponse`. -/
structure TokenInstructionResponse where
  program_id : String
  accounts : List AccountMeta
  instruction_data : String
deriving DecidableEq, Repr

/-- Model of `models::SignMessageRequest`. -/
structure SignMessageRequest where
  message : String
  secret : String
deriving DecidableEq, Repr

/-- Model of `models::SignMessageResponse`. -/
structure SignMessageResponse where
  signature : String
  public_key : String
  message : String
deriving DecidableEq, Repr

/-- Model of `models::VerifyMessageRequest`. -/
structure VerifyMessageRequest where
  message : String
  signature : String
  public_key : String
deriving DecidableEq, Repr

/-- Model of `models::VerifyMessageResponse`. -/
structure VerifyMessageResponse where
  valid : Bool
deriving DecidableEq, Repr

/- ## Solana SDK types (bytes modelled as `List Nat`, each entry < 256) -/

/-- Model of `solana_sdk::pubkey::Pubkey`: 32 raw bytes. -/
structure Pubkey where
  bytes : List Nat
deriving DecidableEq, Repr

/-- Model of the `Pubkey` `Display` impl (`to_string`): base58 of the raw bytes. -/
def Pubkey.to_string (p : Pubkey) : String := encode58 p.bytes

/-- Model of `Pubkey::from_str`: reject strings longer than 44 bytes, then base58
decode and require exactly 32 bytes. -/
def Pubkey.from_str (s : String) : Option Pubkey :=
  if s.length > 44 then none
  else match decode58 s with
    | none => none
    | some bs => if bs.length = 32 then some ⟨bs⟩ else none

/-- Model of `solana_sdk::signature::Signature`: 64 raw bytes. -/
structure Signature where
  bytes : List Nat
deriving DecidableEq, Repr

/-- Model of `Signature::try_from(&[u8])`: requires exactly 64 bytes. -/
def Signature.try_from (bs : List Nat) : Option Signature :=
  if bs.length = 64 then some ⟨bs⟩ else none

/-- Canonical scalar format required by `ed25519-dalek` 1.x
`Signature::from_bytes`: the top three bits of the last signature byte
(`upper[31] & 224`) must be clear, else `ScalarFormatError`. -/
def scalarFormatOk (bs : List Nat) : Bool := (bs.getD 63 0) &&& 224 == 0

/-- Model of `solana_sdk::signature::Keypair`: 64 bytes, secret half then public
half, as produced by `Keypair::to_bytes`. -/
structure Keypair where
  bytes : List Nat
deriving DecidableEq, Repr

/- ## External library interfaces

The Ed25519 (`ed25519-dalek`) and SPL-token crates are imported, not part of
this repository; they are modelled as interfaces. -/

/-- Interface of the imported `ed25519-dalek` library. -/
structure Ed25519Lib where
  /-- Whether 32 bytes decompress to a curve point
  (`PublicKey::from_bytes` succeeds). -/
  validPoint : List Nat → Bool
  /-- Whether 64 bytes are a keypair that `Keypair::new` can produce. -/
  validKeypair : List Nat → Bool
  /-- Model of `keypair.sign_message`: keypair bytes and message bytes to a
  64-byte signature. -/
  sign : List Nat → List Nat → List Nat
  /-- Model of `public_key.verify`: public key bytes, message bytes, signature
  bytes to the verification outcome. -/
  verify : List Nat → List Nat → List Nat → Bool

/-- Contract of the imported Ed25519 library: generated keypairs are 64
well-formed bytes whose public half is a valid point; signatures are 64
bytes in dalek's canonical scalar format (their `s` half is reduced mod the
group order, so `Signature::from_bytes` accepts them); and verifying a
fresh signature under the keypair's public half succeeds. -/
structure Ed25519Sound (E : Ed25519Lib) : Prop where
  keypair_len : ∀ kp, E.validKeypair kp = true → kp.length = 64
  keypair_bytes_lt : ∀ kp b, E.validKeypair kp = true → b ∈ kp → b < 256
  keypair_point : ∀ kp, E.validKeypair kp = true → E.validPoint (kp.drop 32) = true
  sign_length : ∀ kp m, (E.sign kp m).length = 64
  sign_bytes_lt : ∀ kp m b, b ∈ E.sign kp m → b < 256
  sign_scalar : ∀ kp m, scalarFormatOk (E.sign kp m) = true
  sign_verify : ∀ kp m, E.validKeypair kp = true →
    E.verify (kp.drop 32) m (E.sign kp m) = true

/-- Model of `Keypair::from_bytes` (via `ed25519_dalek::Keypair::from_bytes`):
requires 64 bytes whose public half is a valid point. -/
def Keypair.from_bytes (E : Ed25519Lib) (bs : List Nat) : Option Keypair :=
  if bs.length = 64 && E.validPoint (bs.drop 32) then some ⟨bs⟩ else none

/-- Model of `solana_sdk::instruction::AccountMeta` (raw form). -/
structure SdkAccountMeta where
  pubkey : Pubkey
  is_signer : Bool
  is_writable : Bool
deriving DecidableEq, Repr

/-- Model of `solana_sdk::instruction::Instruction`. -/
structure Instruction where
  program_id : Pubkey
  accounts : List SdkAccountMeta
  data : List Nat
deriving DecidableEq, Repr

/-- Interface of the imported `spl_token` instruction constructors:
`initialize_mint (token_program_id, mint, mint_authority, freeze_authority,
decimals)` and `mint_to (token_program_id, mint, destination, authority,
signer_pubkeys, amount)`. -/
structure SplTokenLib where
  initialize_mint : Pubkey → Pubkey → Pubkey → Option Pubkey → Nat →
    Except String Instruction
  mint_to : Pubkey → Pubkey → Pubkey → Pubkey → List Pubkey → Nat →
    Except String Instruction

/-- Model of `spl_token::id()`: the SPL token program id
(`TokenkegQfeZyiNwAJbNbGKPFXCWuBvf9Ss623VQ5DA`), as raw bytes. -/
def spl_token_id : Pubkey :=
  ⟨(decode58 "TokenkegQfeZyiNwAJbNbGKPFXCWuBvf9Ss623VQ5DA").getD []⟩

/-- UTF-8 bytes of a string (`str::as_bytes`). -/
def strBytes (s : String) : List Nat := s.toUTF8.toList.map (fun b => b.toNat)

/- ## Service layer (`services::solana`) -/

/-- Model of `services::solana::SolanaService`: a field-less struct. -/
structure SolanaService where
deriving DecidableEq, Repr

/-- Model of `SolanaService::new`. -/
def SolanaService.new : SolanaService := {}

/-- Model of `SolanaService::generate_keypair`: fresh randomness (the keypair bytes
produced by `Keypair::new`) is passed explicitly. -/
def SolanaService.generate_keypair (_s : SolanaService) (keypair : Keypair) :
    Except AppError KeypairResponse :=
  Except.ok
    { public_key := encode58 (keypair.bytes.drop 32)
      secret_key := encode58 keypair.bytes }

/-- Model of `SolanaService::instruction_to_response`. -/
def SolanaService.instruction_to_response (_s : SolanaService)
    (instruction : Instruction) : Except AppError TokenInstructionResponse :=
  Except.ok
    { program_id := instruction.program_id.to_string
      accounts := instruction.accounts.map (fun acc =>
        { pubkey := acc.pubkey.to_string
          is_signer := acc.is_signer
          is_writable := acc.is_writable })
      instruction_data := encode64 instruction.data }

/-- Model of `SolanaService::create_token_mint`. -/
def SolanaService.create_token_mint (L : SplTokenLib) (s : SolanaService)
    (mint_authority mint : String) (decimals : Nat) :
    Except AppError TokenInstructionResponse :=
  match Pubkey.from_str mint_authority with
  | none => Except.error (AppError.InvalidPublicKey mint_authority)
  | some mint_authority_pubkey =>
    match Pubkey.from_str mint with
    | none => Except.error (AppError.InvalidPublicKey mint)
    | some mint_pubkey =>
      match L.initialize_mint spl_token_id mint_pubkey mint_authority_pubkey
        (some mint_authority_pubkey) decimals with
      | Except.error e => Except.error (AppError.TokenOperationFailed e)
      | Except.ok instruction => s.instruction_to_response instruction

/-- Model of `SolanaService::mint_token`. -/
def SolanaService.mint_token (L : SplTokenLib) (s : SolanaService)
    (mint destination authority : String) (amount : Nat) :
    Except AppError TokenInstructionResponse :=
  match Pubkey.from_str mint with
  | none => Except.error (AppError.InvalidPublicKey mint)
  | some mint_pubkey =>
    match Pubkey.from_str destination with
    | none => Except.error (AppError.InvalidPublicKey destination)
    | some destination_pubkey =>
      match Pubkey.from_str authority with
      | none => Except.error (AppError.InvalidPublicKey authority)
      | some authority_pubkey =>
        match L.mint_to spl_token_id mint_pubkey destination_pubkey
          authority_pubkey [] amount with
        | Except.error e => Except.error (AppError.TokenOperationFailed e)
        | Except.ok instruction => s.instruction_to_response instruction

/-- Model of `SolanaService::sign_message`. -/
def SolanaService.sign_message (E : Ed25519Lib) (_s : SolanaService)
    (message secret_key : String) : Except AppError SignMessageResponse :=
  match decode58 secret_key with
  | none => Except.error base58_decode_error
  | some secret_bytes =>
    match Keypair.from_bytes E secret_bytes with
    | none => Except.error (AppError.InvalidSecretKey "Invalid secret key format")
    | some keypair =>
      Except.ok
        { signature := encode64 (E.sign keypair.bytes (strBytes message))
          public_key := encode58 (keypair.bytes.drop 32)
          message := message }

/-- Model of `SolanaService::verify_ed25519_signature`: converts to `ed25519-dalek`
types -- point validity for the public key, then dalek 1.x
`Signature::from_bytes` for the signature (64 bytes in canonical scalar
format, else `ScalarFormatError`) -- and returns `verify(...).is_ok()`. -/
def SolanaService.verify_ed25519_signature (E : Ed25519Lib) (_s : SolanaService)
    (pubkey : Pubkey) (message : List Nat) (signature : Signature) :
    Except AppError Bool :=
  if E.validPoint pubkey.bytes then
    if signature.bytes.length = 64 ∧ scalarFormatOk signature.bytes = true then
      Except.ok (E.verify pubkey.bytes message signature.bytes)
    else Except.error (AppError.InvalidSignature "Invalid signature format")
  else Except.error (AppError.InvalidPublicKey "Invalid public key for verification")

/-- Model of `SolanaService::verify_message`. -/
def SolanaService.verify_message (E : Ed25519Lib) (s : SolanaService)
    (message signature_base64 public_key : String) :
    Except AppError VerifyMessageResponse :=
  match decode64 signature_base64 with
  | none => Except.error base64_decode_error
  | some signature_bytes =>
    match Pubkey.from_str public_key with
    | none => Except.error (AppError.InvalidPublicKey public_key)
    | some pubkey =>
      match Signature.try_from signature_bytes with
      | none => Except.error (AppError.InvalidSignature "Invalid signature format")
      | some signature =>
        match s.verify_ed25519_signature E pubkey (strBytes message) signature with
        | Except.error e => Except.error e
        | Except.ok valid => Except.ok { valid := valid }

/-- Model of `SolanaService::is_valid_pubkey`. -/
def SolanaService.is_valid_pubkey (_s : SolanaService) (pubkey_str : String) : Bool :=
  (Pubkey.from_str pubkey_str).isSome

/-- Model of `SolanaService::is_valid_secret_key`: base58 decodes to 64 bytes. -/
def SolanaService.is_valid_secret_key (_s : SolanaService)
    (secret_key_str : String) : Bool :=
  match decode58 secret_key_str with
  | some bytes => bytes.length = 64
  | none => false

/- ## Handlers (`handlers::mod`)

Each POST handler is split into its early-return validation phase and the
delegation to the service; the handler runs the validation and then the
single service call, wrapping success in `ApiResponse::success`. -/

/-- Validation phase of `create_token_handler` (the early returns before the
service call). -/
def create_token_validate (request : CreateTokenRequest) : Option AppError :=
  if request.mint_authority = "" then
    some (AppError.ValidationError "mintAuthority is required")
  else if request.mint = "" then
    some (AppError.ValidationError "mint is required")
  else if SolanaService.new.is_valid_pubkey request.mint_authority = false then
    some (AppError.InvalidPublicKey ("Invalid mintAuthority: " ++ request.mint_authority))
  else if SolanaService.new.is_valid_pubkey request.mint = false then
    some (AppError.InvalidPublicKey ("Invalid mint: " ++ request.mint))
  else none

/-- Model of `handlers::create_token_handler`. -/
def create_token_handler (L : SplTokenLib) (request : CreateTokenRequest) :
    Except AppError (ApiResponse TokenInstructionResponse) :=
  match create_token_validate request with
  | some e => Except.error e
  | none =>
    match SolanaService.create_token_mint L SolanaService.new
      request.mint_authority request.mint request.decimals with
    | Except.ok token_response => Except.ok (ApiResponse.success' token_response)
    | Except.error e => Except.error e

/-- Validation phase of `mint_token_handler`. -/
def mint_token_validate (request : MintTokenRequest) : Option AppError :=
  if request.mint = "" then
    some (AppError.ValidationError "mint is required")
  else if request.destination = "" then
    some (AppError.ValidationError "destination is required")
  else if request.authority = "" then
    some (AppError.ValidationError "authority is required")
  else if request.amount = 0 then
    some (AppError.ValidationError "amount must be greater than 0")
  else if SolanaService.new.is_valid_pubkey request.mint = false then
    some (AppError.InvalidPublicKey ("Invalid mint: " ++ request.mint))
  else if SolanaService.new.is_valid_pubkey request.destination = false then
    some (AppError.InvalidPublicKey ("Invalid destination: " ++ request.destination))
  else if SolanaService.new.is_valid_pubkey request.authority = false then
    some (AppError.InvalidPublicKey ("Invalid authority: " ++ request.authority))
  else none

/-- Model of `handlers::mint_token_handler`. -/
def mint_token_handler (L : SplTokenLib) (request : MintTokenRequest) :
    Except AppError (ApiResponse TokenInstructionResponse) :=
  match mint_token_validate request with
  | some e => Except.error e
  | none =>
    match SolanaService.mint_token L SolanaService.new
      request.mint request.destination request.authority request.amount with
    | Except.ok token_response => Except.ok (ApiResponse.success' token_response)
    | Except.error e => Except.error e

/-- Validation phase of `sign_message_handler`. -/
def sign_message_validate (request : SignMessageRequest) : Option AppError :=
  if request.message = "" then
    some (AppError.ValidationError "message is required")
  else if request.secret = "" then
    some (AppError.ValidationError "secret is required")
  else if SolanaService.new.is_valid_secret_key request.secret = false then
    some (AppError.InvalidSecretKey "Invalid secret key format")
  else none

/-- Model of `handlers::sign_message_handler`. -/
def sign_message_handler (E : Ed25519Lib) (request : SignMessageRequest) :
    Except AppError (ApiResponse SignMessageResponse) :=
  match sign_message_validate request with
  | some e => Except.error e
  | none =>
    match SolanaService.sign_message E SolanaService.new
      request.message request.secret with
    | Except.ok sign_response => Except.ok (ApiResponse.success' sign_response)
    | Except.error e => Except.error e

/-- Validation phase of `verify_message_handler`. -/
def verify_message_validate (request : VerifyMessageRequest) : Option AppError :=
  if request.message = "" then
    some (AppError.ValidationError "message is required")
  else if request.signature = "" then
    some (AppError.ValidationError "signature is required")
  else if request.public_key = "" then
    some (AppError.ValidationError "public_key is required")
  else if SolanaService.new.is_valid_pubkey request.public_key = false then
    some (AppError.InvalidPublicKey ("Invalid public_key: " ++ request.public_key))
  else none

/-- Model of `handlers::verify_message_handler`. -/
def verify_message_handler (E : Ed25519Lib) (request : VerifyMessageRequest) :
    Except AppError (ApiResponse VerifyMessageResponse) :=
  match verify_message_validate request with
  | some e => Except.error e
  | none =>
    match SolanaService.verify_message E SolanaService.new
      request.message request.signature request.public_key with
    | Except.ok verify_response => Except.ok (ApiResponse.success' verify_response)
    | Except.error e => Except.error e

/-- Model of `handlers::generate_keypair_handler` (no request body; the fresh
randomness of `Keypair::new` is passed explicitly). -/
def generate_keypair_handler (keypair : Keypair) :
    Except AppError (ApiResponse KeypairResponse) :=
  match SolanaService.new.generate_keypair keypair with
  | Except.ok keypair_response => Except.ok (ApiResponse.success' keypair_response)
  | Except.error e => Except.error e

/- ## Router (`router::mod`) -/

/-- HTTP method of a registered route; every route in this app is POST. -/
inductive HttpMethod where
  | POST
deriving DecidableEq, Repr

/-- Identifier of the handler registered for a route.  The `send_sol` and
`send_token` handlers are imported and registered by the router but their
definitions are not among the provided sources. -/
inductive RouteHandler where
  | generate_keypair
  | create_token
  | mint_token
  | sign_message
  | verify_message
  | send_sol
  | send_token
deriving DecidableEq, Repr

/-- Model of `router::create_router`: the registered route table (the logging and
CORS layers do not alter the route set). -/
def create_router : List (String × HttpMethod × RouteHandler) :=
  [("/keypair", HttpMethod.POST, RouteHandler.generate_keypair),
   ("/token/create", HttpMethod.POST, RouteHandler.create_token),
   ("/token/mint", HttpMethod.POST, RouteHandler.mint_token),
   ("/message/sign", HttpMethod.POST, RouteHandler.sign_message),
   ("/message/verify", HttpMethod.POST, RouteHandler.verify_message),
   ("/send/sol", HttpMethod.POST, RouteHandler.send_sol),
   ("/send/token", HttpMethod.POST, RouteHandler.send_token)]

/- ## JSON wire format (serde derive semantics for the model structs)

`#[derive(Serialize, Deserialize)]` writes each struct as an object whose
keys are the field names (after any `#[serde(rename)]`), in declaration
order, and reads fields back by key. -/

/-- Minimal JSON values. -/
inductive Json where
  | str : String → Json
  | num : Nat → Json
  | bool : Bool → Json
  | arr : List Json → Json
  | obj : List (String × Json) → Json

/-- Keys of a JSON object (empty for non-objects). -/
def Json.keys : Json → List String
  | Json.obj fields => fields.map Prod.fst
  | _ => []

/-- Field lookup in a JSON object. -/
def Json.getField : Json → String → Option Json
  | Json.obj fields, key => fields.lookup key
  | _, _ => none

/-- String-typed field lookup. -/
def Json.getStr (j : Json) (key : String) : Option String :=
  match j.getField key with
  | some (Json.str s) => some s
  | _ => none

/-- Number-typed field lookup. -/
def Json.getNat (j : Json) (key : String) : Option Nat :=
  match j.getField key with
  | some (Json.num n) => some n
  | _ => none

/-- Bool-typed field lookup. -/
def Json.getBool (j : Json) (key : String) : Option Bool :=
  match j.getField key with
  | some (Json.bool b) => some b
  | _ => none

/-- Array-typed field lookup. -/
def Json.getArr (j : Json) (key : String) : Option (List Json) :=
  match j.getField key with
  | some (Json.arr l) => some l
  | _ => none

/-- Serialization of `KeypairResponse`. -/
def KeypairResponse.toJson (r : KeypairResponse) : Json :=
  Json.obj [("public_key", Json.str r.public_key),
            ("secret_key", Json.str r.secret_key)]

/-- Deserialization of `KeypairResponse`. -/
def KeypairResponse.fromJson (j : Json) : Option KeypairResponse :=
  match j.getStr "public_key", j.getStr "secret_key" with
  | some pk, some sk => some { public_key := pk, secret_key := sk }
  | _, _ => none

/-- Serialization of `CreateTokenRequest`: `mint_authority` is written under
the wire key `mintAuthority` per `#[serde(rename = "mintAuthority")]`. -/
def CreateTokenRequest.toJson (r : CreateTokenRequest) : Json :=
  Json.obj [("mintAuthority", Json.str r.mint_authority),
            ("mint", Json.str r.mint),
            ("decimals", Json.num r.decimals)]

/-- Deserialization of `CreateTokenRequest`: the wire key `mintAuthority`
is read into the `mint_authority` field. -/
def CreateTokenRequest.fromJson (j : Json) : Option CreateTokenRequest :=
  match j.getStr "mintAuthority", j.getStr "mint", j.getNat "decimals" with
  | some ma, some m, some d => some { mint_authority := ma, mint := m, decimals := d }
  | _, _, _ => none

/-- Serialization of `MintTokenRequest`. -/
def MintTokenRequest.toJson (r : MintTokenRequest) : Json :=
  Json.obj [("mint", Json.str r.mint),
            ("destination", Json.str r.destination),
            ("authority", Json.str r.authority),
            ("amount", Json.num r.amount)]

/-- Deserialization of `MintTokenRequest`. -/
def MintTokenRequest.fromJson (j : Json) : Option MintTokenRequest :=
  match j.getStr "mint", j.getStr "destination", j.getStr "authority",
      j.getNat "amount" with
  | some m, some d, some a, some amt =>
      some { mint := m, destination := d, authority := a, amount := amt }
  | _, _, _, _ => none

/-- Serialization of `AccountMeta`. -/
def AccountMeta.toJson (r : AccountMeta) : Json :=
  Json.obj [("pubkey", Json.str r.pubkey),
            ("is_signer", Json.bool r.is_signer),
            ("is_writable", Json.bool r.is_writable)]

/-- Deserialization of `AccountMeta`. -/
def AccountMeta.fromJson (j : Json) : Option AccountMeta :=
  match j.getStr "pubkey", j.getBool "is_signer", j.getBool "is_writable" with
  | some pk, some s, some w =>
      some { pubkey := pk, is_signer := s, is_writable := w }
  | _, _, _ => none

/-- Serialization of `TokenInstructionResponse`. -/
def TokenInstructionResponse.toJson (r : TokenInstructionResponse) : Json :=
  Json.obj [("program_id", Json.str r.program_id),
            ("accounts", Json.arr (r.accounts.map AccountMeta.toJson)),
            ("instruction_data", Json.str r.instruction_data)]

/-- Element-wise deserialization of a JSON array (serde `Vec` semantics). -/
def fromJsonList {e : Type} (f : Json → Option e) : List Json → Option (List e)
  | [] => some []
  | j :: js =>
    match f j, fromJsonList f js with
    | some a, some tl => some (a :: tl)
    | _, _ => none

/-- Deserialization of `TokenInstructionResponse`. -/
def TokenInstructionResponse.fromJson (j : Json) : Option TokenInstructionResponse :=
  match j.getStr "program_id", j.getArr "accounts", j.getStr "instruction_data" with
  | some pid, some accs, some idata =>
      match fromJsonList AccountMeta.fromJson accs with
      | some accounts =>
          some { program_id := pid, accounts := accounts, instruction_data := idata }
      | none => none
  | _, _, _ => none

/-- Serialization of `SignMessageRequest`. -/
def SignMessageRequest.toJson (r : SignMessageRequest) : Json :=
  Json.obj [("message", Json.str r.message), ("secret", Json.str r.secret)]

/-- Deserialization of `SignMessageRequest`. -/
def SignMessageRequest.fromJson (j : Json) : Option SignMessageRequest :=
  match j.getStr "message", j.getStr "secret" with
  | some m, some s => some { message := m, secret := s }
  | _, _ => none

/-- Serialization of `SignMessageResponse`. -/
def SignMessageResponse.toJson (r : SignMessageResponse) : Json :=
  Json.obj [("signature", Json.str r.signature),
            ("public_key", Json.str r.public_key),
            ("message", Json.str r.message)]

/-- Deserialization of `SignMessageResponse`. -/
def SignMessageResponse.fromJson (j : Json) : Option SignMessageResponse :=
  match j.getStr "signature", j.getStr "public_key", j.getStr "message" with
  | some s, some pk, some m =>
      some { signature := s, public_key := pk, message := m }
  | _, _, _ => none

/-- Serialization of `VerifyMessageRequest`. -/
def VerifyMessageRequest.toJson (r : VerifyMessageRequest) : Json :=
  Json.obj [("message", Json.str r.message),
            ("signature", Json.str r.signature),
            ("public_key", Json.str r.public_key)]

/-- Deserialization of `VerifyMessageRequest`. -/
def VerifyMessageRequest.fromJson (j : Json) : Option VerifyMessageRequest :=
  match j.getStr "message", j.getStr "signature", j.getStr "public_key" with
  | some m, some s, some pk =>
      some { message := m, signature := s, public_key := pk }
  | _, _, _ => none

/-- Serialization of `VerifyMessageResponse`. -/
def VerifyMessageResponse.toJson (r : VerifyMessageResponse) : Json :=
  Json.obj [("valid", Json.bool r.valid)]

/-- Deserialization of `VerifyMessageResponse`. -/
def VerifyMessageResponse.fromJson (j : Json) : Option VerifyMessageResponse :=
  match j.getBool "valid" with
  | some v => some { valid := v }
  | none => none

/- ## Concrete library instances (used to instantiate the interface-level
theorems on closed inputs) -/

/-- A degenerate but contract-satisfying Ed25519 library instance. -/
def E0 : Ed25519Lib :=
  { validPoint := fun _ => true
    validKeypair := fun kp => kp == List.replicate 64 0
    sign := fun _ _ => List.replicate 64 0
    verify := fun _ _ sig => sig == List.replicate 64 0 }

theorem E0_sound : Ed25519Sound E0 := by
  constructor
  · intro kp h
    simp [E0] at h
    simp [h]
  · intro kp b h hb
    simp [E0] at h
    subst h
    simp at hb
    omega
  · intro kp h
    rfl
  · intro kp m
    simp [E0]
  · intro kp m b hb
    simp [E0] at hb
    omega
  · intro kp m
    simp [E0, scalarFormatOk]
  · intro kp m h
    simp [E0]

/-- A degenerate SPL-token library instance. -/
def L0 : SplTokenLib :=
  { initialize_mint := fun pid mint auth _freeze dec =>
      Except.ok
        { program_id := pid
          accounts := [{ pubkey := mint, is_signer := false, is_writable := true },
                       { pubkey := auth, is_signer := true, is_writable := false }]
          data := [0, dec % 256] }
    mint_to := fun pid mint dest auth _signers amount =>
      Except.ok
        { program_id := pid
          accounts := [{ pubkey := mint, is_signer := false, is_writable := true },
                       { pubkey := dest, is_signer := false, is_writable := true },
                       { pubkey := auth, is_signer := true, is_writable := false }]
          data := [7, amount % 256] } }

/-- The all-zero keypair accepted by `E0`. -/
def kp0 : Keypair := ⟨List.replicate 64 0⟩

/- ## Helper lemmas for the claims -/

/-- Parsing the base58 encoding of 32 well-formed bytes recovers them. -/
theorem Pubkey_from_str_encode58 (bs : List Nat) (hlt : ∀ b ∈ bs, b < 256)
    (hlen : bs.length = 32) : Pubkey.from_str (encode58 bs) = some ⟨bs⟩ := by
  rw [Pubkey.from_str, if_neg (by have := encode58_length_le_44 bs hlt hlen; omega),
    decode58_encode58 bs hlt]
  simp [hlen]

theorem fromJsonList_accountMeta_roundtrip (l : List AccountMeta) :
    fromJsonList AccountMeta.fromJson (l.map AccountMeta.toJson) = some l := by
  induction l with
  | nil => rfl
  | cons a tl ih =>
    have ha : AccountMeta.fromJson (AccountMeta.toJson a) = some a := rfl
    simp [fromJsonList, ha, ih]

/- ## Claims -/

/-- C6: the service layer is stateless.  `SolanaService` carries no fields,
so all instances are equal, and every service operation returns the same
result for any two service values: its result depends only on its arguments
(with `generate_keypair`'s fresh randomness passed explicitly). -/
theorem claim6_service_stateless :
    (∀ s t : SolanaService, s = t) ∧
    (∀ (s t : SolanaService) (kp : Keypair),
      s.generate_keypair kp = t.generate_keypair kp) ∧
    (∀ (L : SplTokenLib) (s t : SolanaService) (ma mint : String) (d : Nat),
      SolanaService.create_token_mint L s ma mint d =
        SolanaService.create_token_mint L t ma mint d) ∧
    (∀ (L : SplTokenLib) (s t : SolanaService) (mint dest auth : String) (amt : Nat),
      SolanaService.mint_token L s mint dest auth amt =
        SolanaService.mint_token L t mint dest auth amt) ∧
    (∀ (E : Ed25519Lib) (s t : SolanaService) (msg sk : String),
      SolanaService.sign_message E s msg sk = SolanaService.sign_message E t msg sk) ∧
    (∀ (E : Ed25519Lib) (s t : SolanaService) (msg sig pk : String),
      SolanaService.verify_message E s msg sig pk =
        SolanaService.verify_message E t msg sig pk) ∧
    (∀ (s t : SolanaService) (p : String), s.is_valid_pubkey p = t.is_valid_pubkey p) ∧
    (∀ (s t : SolanaService) (k : String),
      s.is_valid_secret_key k = t.is_valid_secret_key k) := by
  refine ⟨?_, ?_, ?_, ?_, ?_, ?_, ?_, ?_⟩ <;> intros <;> rfl

/-- C7: the response envelope.  `ApiResponse::success` sets `success = true`
and carries the payload unchanged, `ApiErrorResponse::error` sets
`success = false` and carries the message, and every handler wraps a
successful result in `ApiResponse::success`. -/
theorem claim7_response_envelope :
    (∀ (α : Type) (d : α),
      (ApiResponse.success' d).success = true ∧ (ApiResponse.success' d).data = d) ∧
    (∀ m : String,
      (ApiErrorResponse.error' m).success = false ∧ (ApiErrorResponse.error' m).error = m) ∧
    (∀ (kp : Keypair) (r : ApiResponse KeypairResponse),
      generate_keypair_handler kp = Except.ok r → r = ApiResponse.success' r.data) ∧
    (∀ (L : SplTokenLib) (req : CreateTokenRequest) (r : ApiResponse TokenInstructionResponse),
      create_token_handler L req = Except.ok r → r = ApiResponse.success' r.data) ∧
    (∀ (L : SplTokenLib) (req : MintTokenRequest) (r : ApiResponse TokenInstructionResponse),
      mint_token_handler L req = Except.ok r → r = ApiResponse.success' r.data) ∧
    (∀ (E : Ed25519Lib) (req : SignMessageRequest) (r : ApiResponse SignMessageResponse),
      sign_message_handler E req = Except.ok r → r = ApiResponse.success' r.data) ∧
    (∀ (E : Ed25519Lib) (req : VerifyMessageRequest) (r : ApiResponse VerifyMessageResponse),
      verify_message_handler E req = Except.ok r → r = ApiResponse.success' r.data) := by
  refine ⟨fun α d => ⟨rfl, rfl⟩, fun m => ⟨rfl, rfl⟩, ?_, ?_, ?_, ?_, ?_⟩
  · intro kp r h
    simp [generate_keypair_handler, SolanaService.generate_keypair] at h
    rw [← h]
    rfl
  · intro L req r h
    rw [create_token_handler] at h
    cases hv : create_token_validate req with
    | some e => rw [hv] at h; simp at h
    | none =>
      rw [hv] at h
      cases hs : SolanaService.create_token_mint L SolanaService.new
          req.mint_authority req.mint req.decimals with
      | ok tr => rw [hs] at h; simp at h; rw [← h]; rfl
      | error e => rw [hs] at h; simp at h
  · intro L req r h
    rw [mint_token_handler] at h
    cases hv : mint_token_validate req with
    | some e => rw [hv] at h; simp at h
    | none =>
      rw [hv] at h
      cases hs : SolanaService.mint_token L SolanaService.new
          req.mint req.destination req.authority req.amount with
      | ok tr => rw [hs] at h; simp at h; rw [← h]; rfl
      | error e => rw [hs] at h; simp at h
  · intro E req r h
    rw [sign_message_handler] at h
    cases hv : sign_message_validate req with
    | some e => rw [hv] at h; simp at h
    | none =>
      rw [hv] at h
      cases hs : SolanaService.sign_message E SolanaService.new
          req.message req.secret with
      | ok sr => rw [hs] at h; simp at h; rw [← h]; rfl
      | error e => rw [hs] at h; simp at h
  · intro E req r h
    rw [verify_message_handler] at h
    cases hv : verify_message_validate req with
    | some e => rw [hv] at h; simp at h
    | none =>
      rw [hv] at h
      cases hs : SolanaService.verify_message E SolanaService.new
          req.message req.signature req.public_key with
      | ok vr => rw [hs] at h; simp at h; rw [← h]; rfl
      | error e => rw [hs] at h; simp at h

theorem claim7_witness :
    (ApiResponse.success' (37 : Nat)).success = true ∧
    (ApiResponse.success'
        { public_key := String.mk (List.replicate 32 '1')
          secret_key := String.mk (List.replicate 64 '1') } : ApiResponse KeypairResponse)
      = ApiResponse.success'
          (ApiResponse.success'
            { public_key := String.mk (List.replicate 32 '1')
              secret_key := String.mk (List.replicate 64 '1') } :
            ApiResponse KeypairResponse).data :=
  ⟨(claim7_response_envelope.1 Nat 37).1,
   claim7_response_envelope.2.2.1 kp0 _ rfl⟩

/-- C8: wire-format field renaming.  `CreateTokenRequest` reads and writes
its `mint_authority` field under the wire key `mintAuthority`, and every
other request/response field is carried under its own field name; all the
serializers round-trip. -/
theorem claim8_wire_field_renaming :
    (∀ r : CreateTokenRequest,
      (CreateTokenRequest.toJson r).keys = ["mintAuthority", "mint", "decimals"] ∧
      (CreateTokenRequest.toJson r).getStr "mintAuthority" = some r.mint_authority ∧
      CreateTokenRequest.fromJson (CreateTokenRequest.toJson r) = some r) ∧
    (∀ r : KeypairResponse,
      (KeypairResponse.toJson r).keys = ["public_key", "secret_key"] ∧
      KeypairResponse.fromJson (KeypairResponse.toJson r) = some r) ∧
    (∀ r : MintTokenRequest,
      (MintTokenRequest.toJson r).keys = ["mint", "destination", "authority", "amount"] ∧
      MintTokenRequest.fromJson (MintTokenRequest.toJson r) = some r) ∧
    (∀ r : AccountMeta,
      (AccountMeta.toJson r).keys = ["pubkey", "is_signer", "is_writable"] ∧
      AccountMeta.fromJson (AccountMeta.toJson r) = some r) ∧
    (∀ r : TokenInstructionResponse,
      (TokenInstructionResponse.toJson r).keys =
        ["program_id", "accounts", "instruction_data"] ∧
      TokenInstructionResponse.fromJson (TokenInstructionResponse.toJson r) = some r) ∧
    (∀ r : SignMessageRequest,
      (SignMessageRequest.toJson r).keys = ["message", "secret"] ∧
      SignMessageRequest.fromJson (SignMessageRequest.toJson r) = some r) ∧
    (∀ r : SignMessageResponse,
      (SignMessageResponse.toJson r).keys = ["signature", "public_key", "message"] ∧
      SignMessageResponse.fromJson (SignMessageResponse.toJson r) = some r) ∧
    (∀ r : VerifyMessageRequest,
      (VerifyMessageRequest.toJson r).keys = ["message", "signature", "public_key"] ∧
      VerifyMessageRequest.fromJson (VerifyMessageRequest.toJson r) = some r) ∧
    (∀ r : VerifyMessageResponse,
      (VerifyMessageResponse.toJson r).keys = ["valid"] ∧
      VerifyMessageResponse.fromJson (VerifyMessageResponse.toJson r) = some r) := by
  refine ⟨fun r => ⟨rfl, rfl, rfl⟩, fun r => ⟨rfl, rfl⟩, fun r => ⟨rfl, rfl⟩,
    fun r => ⟨rfl, rfl⟩, ?_, fun r => ⟨rfl, rfl⟩, fun r => ⟨rfl, rfl⟩,
    fun r => ⟨rfl, rfl⟩, fun r => ⟨rfl, rfl⟩⟩
  intro r
  refine ⟨rfl, ?_⟩
  have hacc := fromJsonList_accountMeta_roundtrip r.accounts
  simp [TokenInstructionResponse.fromJson, TokenInstructionResponse.toJson,
    Json.getStr, Json.getArr, Json.getField, List.lookup, hacc]

/-- C2 as stated is false on the code: the router also registers the POST
routes `/send/sol` and `/send/token`, so the route table is not the claimed
five-route table. -/
theorem claim2_counterexample :
    ("/send/sol", HttpMethod.POST, RouteHandler.send_sol) ∈ create_router ∧
    create_router.map (fun r => r.1) ≠
      ["/keypair", "/token/create", "/token/mint", "/message/sign", "/message/verify"] := by
  constructor
  · decide
  · decide

/-- C2 (amended): the application router registers exactly seven POST
routes: the five claimed ones plus `/send/sol` and `/send/token`, each
bound to the handler of the same name, and no other routes. -/
theorem claim2_router_routes_amended :
    create_router =
      [("/keypair", HttpMethod.POST, RouteHandler.generate_keypair),
       ("/token/create", HttpMethod.POST, RouteHandler.create_token),
       ("/token/mint", HttpMethod.POST, RouteHandler.mint_token),
       ("/message/sign", HttpMethod.POST, RouteHandler.sign_message),
       ("/message/verify", HttpMethod.POST, RouteHandler.verify_message),
       ("/send/sol", HttpMethod.POST, RouteHandler.send_sol),
       ("/send/token", HttpMethod.POST, RouteHandler.send_token)] := rfl

/-- A `token/mint` request with three valid public keys and `amount = 0`:
it fails validation even though no string field is empty and no key fails
format validation. -/
def mintReqAmountZero : MintTokenRequest :=
  { mint := "11111111111111111111111111111112"
    destination := "11111111111111111111111111111112"
    authority := "11111111111111111111111111111112"
    amount := 0 }

/-- C1 as stated is false on the code: for `token/mint`, a request with
valid non-empty keys but `amount = 0` is rejected before the service is
invoked, though no required string field is empty and no key fails format
validation. -/
theorem claim1_counterexample :
    mint_token_validate mintReqAmountZero ≠ none ∧
    mint_token_handler L0 mintReqAmountZero =
      Except.error (AppError.ValidationError "amount must be greater than 0") ∧
    ¬ (mintReqAmountZero.mint = "" ∨ mintReqAmountZero.destination = "" ∨
       mintReqAmountZero.authority = "" ∨
       SolanaService.new.is_valid_pubkey mintReqAmountZero.mint = false ∨
       SolanaService.new.is_valid_pubkey mintReqAmountZero.destination = false ∨
       SolanaService.new.is_valid_pubkey mintReqAmountZero.authority = false) := by
  refine ⟨by decide, rfl, by decide⟩

/-- C1 (amended): each POST endpoint handler rejects a request without
invoking the service exactly when a required string field is empty, a key
fails format validation (base58 public key, or base58 64-byte secret), or --
for `token/mint` only -- the amount is zero; every request passing these
checks is delegated in a single call to the service operation, whose result
(wrapped on success) is the handler's result. -/
theorem claim1_validation_iff_amended :
    (∀ r : CreateTokenRequest,
      (create_token_validate r ≠ none ↔
        (r.mint_authority = "" ∨ r.mint = "" ∨
         SolanaService.new.is_valid_pubkey r.mint_authority = false ∨
         SolanaService.new.is_valid_pubkey r.mint = false))) ∧
    (∀ (L : SplTokenLib) (r : CreateTokenRequest), create_token_validate r = none →
      create_token_handler L r = Except.map ApiResponse.success'
        (SolanaService.create_token_mint L SolanaService.new
          r.mint_authority r.mint r.decimals)) ∧
    (∀ r : MintTokenRequest,
      (mint_token_validate r ≠ none ↔
        (r.mint = "" ∨ r.destination = "" ∨ r.authority = "" ∨ r.amount = 0 ∨
         SolanaService.new.is_valid_pubkey r.mint = false ∨
         SolanaService.new.is_valid_pubkey r.destination = false ∨
         SolanaService.new.is_valid_pubkey r.authority = false))) ∧
    (∀ (L : SplTokenLib) (r : MintTokenRequest), mint_token_validate r = none →
      mint_token_handler L r = Except.map ApiResponse.success'
        (SolanaService.mint_token L SolanaService.new
          r.mint r.destination r.authority r.amount)) ∧
    (∀ r : SignMessageRequest,
      (sign_message_validate r ≠ none ↔
        (r.message = "" ∨ r.secret = "" ∨
         SolanaService.new.is_valid_secret_key r.secret = false))) ∧
    (∀ (E : Ed25519Lib) (r : SignMessageRequest), sign_message_validate r = none →
      sign_message_handler E r = Except.map ApiResponse.success'
        (SolanaService.sign_message E SolanaService.new r.message r.secret)) ∧
    (∀ r : VerifyMessageRequest,
      (verify_message_validate r ≠ none ↔
        (r.message = "" ∨ r.signature = "" ∨ r.public_key = "" ∨
         SolanaService.new.is_valid_pubkey r.public_key = false))) ∧
    (∀ (E : Ed25519Lib) (r : VerifyMessageRequest), verify_message_validate r = none →
      verify_message_handler E r = Except.map ApiResponse.success'
        (SolanaService.verify_message E SolanaService.new
          r.message r.signature r.public_key)) := by
  refine ⟨?_, ?_, ?_, ?_, ?_, ?_, ?_, ?_⟩
  · intro r
    rw [create_token_validate]
    split_ifs with h1 h2 h3 h4 <;> simp_all
  · intro L r hv
    rw [create_token_handler, hv]
    cases hs : SolanaService.create_token_mint L SolanaService.new
        r.mint_authority r.mint r.decimals <;> simp [Except.map, hs]
  · intro r
    rw [mint_token_validate]
    split_ifs with h1 h2 h3 h4 h5 h6 h7 <;> simp_all
  · intro L r hv
    rw [mint_token_handler, hv]
    cases hs : SolanaService.mint_token L SolanaService.new
        r.mint r.destination r.authority r.amount <;> simp [Except.map, hs]
  · intro r
    rw [sign_message_validate]
    split_ifs with h1 h2 h3 <;> simp_all
  · intro E r hv
    rw [sign_message_handler, hv]
    cases hs : SolanaService.sign_message E SolanaService.new
        r.message r.secret <;> simp [Except.map, hs]
  · intro r
    rw [verify_message_validate]
    split_ifs with h1 h2 h3 h4 <;> simp_all
  · intro E r hv
    rw [verify_message_handler, hv]
    cases hs : SolanaService.verify_message E SolanaService.new
        r.message r.signature r.public_key <;> simp [Except.map, hs]

/-- A `token/mint` request passing every check. -/
def mintReqOk : MintTokenRequest :=
  { mint := "11111111111111111111111111111112"
    destination := "11111111111111111111111111111112"
    authority := "11111111111111111111111111111112"
    amount := 5 }

theorem claim1_witness :
    mint_token_validate mintReqOk = none ∧
    mint_token_handler L0 mintReqOk = Except.map ApiResponse.success'
      (SolanaService.mint_token L0 SolanaService.new
        mintReqOk.mint mintReqOk.destination mintReqOk.authority mintReqOk.amount) :=
  ⟨by decide, claim1_validation_iff_amended.2.2.2.1 L0 mintReqOk (by decide)⟩

/-- C3: sign/verify round trip.  For every message and every keypair
produced by `generate_keypair` (modelled as any keypair the Ed25519 library
can generate), signing with the returned secret key succeeds, and verifying
the returned signature under the returned public key yields `valid = true`. -/
theorem claim3_sign_verify_roundtrip (E : Ed25519Lib) (hE : Ed25519Sound E)
    (s : SolanaService) (kp : Keypair) (message : String)
    (hkp : E.validKeypair kp.bytes = true) (kr : KeypairResponse)
    (hgen : s.generate_keypair kp = Except.ok kr) :
    ∃ sr, SolanaService.sign_message E s message kr.secret_key = Except.ok sr ∧
      SolanaService.verify_message E s message sr.signature sr.public_key =
        Except.ok { valid := true } := by
  have hlen : kp.bytes.length = 64 := hE.keypair_len _ hkp
  have hblt : ∀ b ∈ kp.bytes, b < 256 := fun b hb => hE.keypair_bytes_lt _ b hkp hb
  have hpoint := hE.keypair_point _ hkp
  have hkr : kr = { public_key := encode58 (kp.bytes.drop 32)
                    secret_key := encode58 kp.bytes } := by
    have h := hgen
    simp [SolanaService.generate_keypair] at h
    exact h.symm
  subst hkr
  have hdec : decode58 (encode58 kp.bytes) = some kp.bytes := decode58_encode58 _ hblt
  have hfrom : Keypair.from_bytes E kp.bytes = some ⟨kp.bytes⟩ := by
    rw [Keypair.from_bytes, if_pos]
    rw [hlen, hpoint]
    simp
  refine ⟨{ signature := encode64 (E.sign kp.bytes (strBytes message))
            public_key := encode58 (kp.bytes.drop 32)
            message := message }, ?_, ?_⟩
  · simp [SolanaService.sign_message, hdec, hfrom]
  · have hsiglen : (E.sign kp.bytes (strBytes message)).length = 64 := hE.sign_length _ _
    have hsiglt : ∀ b ∈ E.sign kp.bytes (strBytes message), b < 256 :=
      fun b hb => hE.sign_bytes_lt _ _ b hb
    have hdec64 : decode64 (encode64 (E.sign kp.bytes (strBytes message))) =
        some (E.sign kp.bytes (strBytes message)) := decode64_encode64 _ hsiglt
    have hpk : Pubkey.from_str (encode58 (kp.bytes.drop 32)) =
        some ⟨kp.bytes.drop 32⟩ := by
      apply Pubkey_from_str_encode58
      · intro b hb
        exact hblt b (List.mem_of_mem_drop hb)
      · simp [hlen]
    have hver := hE.sign_verify kp.bytes (strBytes message) hkp
    have hsc := hE.sign_scalar kp.bytes (strBytes message)
    simp [SolanaService.verify_message, hdec64, hpk, Signature.try_from, hsiglen,
      SolanaService.verify_ed25519_signature, hpoint, hver, hsc]

theorem claim3_witness :
    E0.validKeypair kp0.bytes = true ∧
    (∃ sr, SolanaService.sign_message E0 SolanaService.new "m"
        (String.mk (List.replicate 64 '1')) = Except.ok sr ∧
      SolanaService.verify_message E0 SolanaService.new "m" sr.signature sr.public_key =
        Except.ok { valid := true }) :=
  ⟨by decide,
   claim3_sign_verify_roundtrip E0 E0_sound SolanaService.new kp0 "m" (by decide)
     { public_key := String.mk (List.replicate 32 '1')
       secret_key := String.mk (List.replicate 64 '1') } rfl⟩

/-- C9: for valid base58 keys, `create_token_mint` / `mint_token` return a
`TokenInstructionResponse` whose `program_id` is the SPL token program id,
whose accounts preserve the order, base58 pubkey and signer/writable flags
of the library-built instruction, and whose `instruction_data` is the base64
encoding of the instruction's data bytes. -/
theorem claim9_token_instruction_response :
    (∀ (L : SplTokenLib) (s : SolanaService) (mint_authority mint : String)
        (decimals : Nat) (pkA pkM : Pubkey) (i : Instruction),
      Pubkey.from_str mint_authority = some pkA →
      Pubkey.from_str mint = some pkM →
      L.initialize_mint spl_token_id pkM pkA (some pkA) decimals = Except.ok i →
      i.program_id = spl_token_id →
      SolanaService.create_token_mint L s mint_authority mint decimals =
        Except.ok
          { program_id := spl_token_id.to_string
            accounts := i.accounts.map (fun acc =>
              { pubkey := acc.pubkey.to_string
                is_signer := acc.is_signer
                is_writable := acc.is_writable })
            instruction_data := encode64 i.data }) ∧
    (∀ (L : SplTokenLib) (s : SolanaService) (mint destination authority : String)
        (amount : Nat) (pkM pkD pkA : Pubkey) (i : Instruction),
      Pubkey.from_str mint = some pkM →
      Pubkey.from_str destination = some pkD →
      Pubkey.from_str authority = some pkA →
      L.mint_to spl_token_id pkM pkD pkA [] amount = Except.ok i →
      i.program_id = spl_token_id →
      SolanaService.mint_token L s mint destination authority amount =
        Except.ok
          { program_id := spl_token_id.to_string
            accounts := i.accounts.map (fun acc =>
              { pubkey := acc.pubkey.to_string
                is_signer := acc.is_signer
                is_writable := acc.is_writable })
            instruction_data := encode64 i.data }) := by
  constructor
  · intro L s mint_authority mint decimals pkA pkM i h1 h2 h3 h4
    simp [SolanaService.create_token_mint, h1, h2, h3,
      SolanaService.instruction_to_response, h4]
  · intro L s mint destination authority amount pkM pkD pkA i h1 h2 h3 h4 h5
    simp [SolanaService.mint_token, h1, h2, h3, h4,
      SolanaService.instruction_to_response, h5]

theorem claim9_witness :
    Pubkey.from_str "11111111111111111111111111111112" =
      some ⟨List.replicate 31 0 ++ [1]⟩ ∧
    SolanaService.create_token_mint L0 SolanaService.new
        "11111111111111111111111111111112" "11111111111111111111111111111113" 9 =
      Except.ok
        { program_id := spl_token_id.to_string
          accounts :=
            (Instruction.mk spl_token_id
              [{ pubkey := ⟨List.replicate 31 0 ++ [2]⟩, is_signer := false,
                 is_writable := true },
               { pubkey := ⟨List.replicate 31 0 ++ [1]⟩, is_signer := true,
                 is_writable := false }]
              [0, 9 % 256]).accounts.map (fun acc =>
                { pubkey := acc.pubkey.to_string
                  is_signer := acc.is_signer
                  is_writable := acc.is_writable })
          instruction_data :=
            encode64 (Instruction.mk spl_token_id
              [{ pubkey := ⟨List.replicate 31 0 ++ [2]⟩, is_signer := false,
                 is_writable := true },
               { pubkey := ⟨List.replicate 31 0 ++ [1]⟩, is_signer := true,
                 is_writable := false }]
              [0, 9 % 256]).data } :=
  ⟨by decide,
   claim9_token_instruction_response.1 L0 SolanaService.new
     "11111111111111111111111111111112" "11111111111111111111111111111113" 9
     ⟨List.replicate 31 0 ++ [1]⟩ ⟨List.replicate 31 0 ++ [2]⟩
     (Instruction.mk spl_token_id
       [{ pubkey := ⟨List.replicate 31 0 ++ [2]⟩, is_signer := false,
          is_writable := true },
        { pubkey := ⟨List.replicate 31 0 ++ [1]⟩, is_signer := true,
          is_writable := false }]
       [0, 9 % 256])
     (by decide) (by decide) rfl rfl⟩

/-- C10: the `initialize_mint` call made by `create_token_mint` always
passes `Some(mint_authority)` as the freeze authority: the service call is
exactly at that argument, so the built instruction's freeze authority is
set, and equals the request's mint authority. -/
theorem claim10_freeze_authority (L : SplTokenLib) (s : SolanaService)
    (mint_authority mint : String) (decimals : Nat) (pkA pkM : Pubkey)
    (h1 : Pubkey.from_str mint_authority = some pkA)
    (h2 : Pubkey.from_str mint = some pkM) :
    (SolanaService.create_token_mint L s mint_authority mint decimals =
      match L.initialize_mint spl_token_id pkM pkA (some pkA) decimals with
      | Except.ok i => s.instruction_to_response i
      | Except.error e => Except.error (AppError.TokenOperationFailed e)) ∧
    (∀ L' : SplTokenLib,
      L.initialize_mint spl_token_id pkM pkA (some pkA) decimals =
        L'.initialize_mint spl_token_id pkM pkA (some pkA) decimals →
      SolanaService.create_token_mint L s mint_authority mint decimals =
        SolanaService.create_token_mint L' s mint_authority mint decimals) := by
  constructor
  · simp only [SolanaService.create_token_mint, h1, h2]
    cases L.initialize_mint spl_token_id pkM pkA (some pkA) decimals <;> rfl
  · intro L' hagree
    simp [SolanaService.create_token_mint, h1, h2, hagree]

theorem claim10_witness :
    Pubkey.from_str "11111111111111111111111111111113" =
      some ⟨List.replicate 31 0 ++ [2]⟩ ∧
    (SolanaService.create_token_mint L0 SolanaService.new
        "11111111111111111111111111111112" "11111111111111111111111111111113" 9 =
      match L0.initialize_mint spl_token_id ⟨List.replicate 31 0 ++ [2]⟩
          ⟨List.replicate 31 0 ++ [1]⟩ (some ⟨List.replicate 31 0 ++ [1]⟩) 9 with
      | Except.ok i => SolanaService.new.instruction_to_response i
      | Except.error e => Except.error (AppError.TokenOperationFailed e)) :=
  ⟨by decide,
   (claim10_freeze_authority L0 SolanaService.new
     "11111111111111111111111111111112" "11111111111111111111111111111113" 9
     ⟨List.replicate 31 0 ++ [1]⟩ ⟨List.replicate 31 0 ++ [2]⟩
     (by decide) (by decide)).1⟩
